import Mathlib

/-!
Shallow embedding of the core logic of the `unifi_unas` Home Assistant
integration (telemetry ingestion, staleness eviction, availability,
deployment idempotence, poll-cycle error handling and resource-discovery
reconciliation), together with theorems settling the frozen claims about it.

Conventions of the embedding:
* Python `dict`s are association lists with unique keys (`dictSet`,
  `dictGet?`, `dictDel` mirror item assignment, lookup and `del`).
* `datetime` instants and second-differences are rationals (`ℚ`); the two
  adjacent `datetime.now()` calls inside one store are modelled as the same
  instant.
* Python's `float(...)` result is modelled by the exact decimal rational it
  denotes (IEEE rounding is abstracted away); `int(...)`/`float(...)`
  string parsing is modelled over ASCII input (optional surrounding
  whitespace, sign, digit runs with single underscores between digits,
  decimal point, exponent); the `inf`/`nan` float forms contain no decimal
  point and are unreachable under the code's `"." in payload` guard.
* `json.loads` is an opaque library function: it is passed in as a
  parameter `jl : String → Option PyJson` (`none` models a decode error).
* Fallible remote (SSH) operations are modelled by `Except Unit` results
  supplied by a `PollWorld` environment; an `.error` is a raised exception.
-/

/-- A value held in the MQTT client's `_data` dict: the result of the
best-effort numeric coercion in `_store_value`, or a decoded JSON payload
stored by `_store_attributes`. -/
inductive PyJson where
  | null : PyJson
  | bool : Bool → PyJson
  | int : Int → PyJson
  | float : ℚ → PyJson
  | str : String → PyJson
  | arr : List PyJson → PyJson
  | obj : List (String × PyJson) → PyJson

inductive PyValue where
  | str : String → PyValue
  | int : Int → PyValue
  | float : ℚ → PyValue
  | json : PyJson → PyValue

/-- Python dict item assignment `d[k] = v` on an association list:
overwrite the existing entry in place, else append. -/
def dictSet {α : Type} : List (String × α) → String → α → List (String × α)
  | [], k, v => [(k, v)]
  | (k', v') :: rest, k, v =>
      if k' = k then (k, v) :: rest else (k', v') :: dictSet rest k v

/-- Python dict lookup `d.get(k)`. -/
def dictGet? {α : Type} : List (String × α) → String → Option α
  | [], _ => none
  | (k', v') :: rest, k => if k' = k then some v' else dictGet? rest k

/-- Python `del d[k]` (on unique-key dicts: drop the entry). -/
def dictDel {α : Type} (d : List (String × α)) (k : String) : List (String × α) :=
  d.filter (fun p => p.1 ≠ k)

/-- The keys of a dict are pairwise distinct — true of every Python dict;
states of the embedding that violate it are unreachable. -/
def dictNodup {α : Type} (d : List (String × α)) : Prop :=
  (d.map Prod.fst).Nodup

instance {α : Type} (d : List (String × α)) : Decidable (dictNodup d) := by
  unfold dictNodup; infer_instance

/-- ASCII whitespace stripped by Python's `int()` / `float()` / `str.strip()`. -/
def isPySpace (c : Char) : Bool :=
  c = ' ' || c = '\t' || c = '\n' || c = '\r' || c = '\x0b' || c = '\x0c'

def pyStripList (cs : List Char) : List Char :=
  ((cs.dropWhile isPySpace).reverse.dropWhile isPySpace).reverse

/-- Python `str.strip()` (ASCII whitespace). -/
def pyStrip (s : String) : String :=
  (pyStripList s.toList).asString

def digitVal (c : Char) : Nat := c.toNat - 48

/-- Consume the rest of a digit run in which single underscores may stand
between digits (Python numeric-literal grouping); fails unless the whole
remaining input is such a run. -/
def pyDigitTail : Nat → List Char → Option Nat
  | acc, [] => some acc
  | acc, '_' :: rest =>
      match rest with
      | c :: rest2 =>
          if c.isDigit then pyDigitTail (acc * 10 + digitVal c) rest2 else none
      | [] => none
  | acc, c :: rest =>
      if c.isDigit then pyDigitTail (acc * 10 + digitVal c) rest else none

/-- Python `int(s)`: optional surrounding whitespace, optional sign, then a
nonempty digit run (with underscore grouping). Non-ASCII digit characters
are outside the model. -/
def pyInt? (s : String) : Option Int :=
  match pyStripList s.toList with
  | '+' :: c :: rest =>
      if c.isDigit then (pyDigitTail (digitVal c) rest).map Int.ofNat else none
  | '-' :: c :: rest =>
      if c.isDigit then (pyDigitTail (digitVal c) rest).map (fun n => -(n : Int)) else none
  | c :: rest =>
      if c.isDigit then (pyDigitTail (digitVal c) rest).map Int.ofNat else none
  | [] => none

/-- Consume a maximal digit run (with underscore grouping), returning its
value, its digit count and the unconsumed remainder. A leading underscore
is not consumed. -/
def pyDigitRun : Nat → Nat → List Char → Nat × Nat × List Char
  | v, n, [] => (v, n, [])
  | v, n, '_' :: rest =>
      if n = 0 then (v, n, '_' :: rest)
      else
        match rest with
        | c :: rest2 =>
            if c.isDigit then pyDigitRun (v * 10 + digitVal c) (n + 1) rest2
            else (v, n, '_' :: rest)
        | [] => (v, n, ['_'])
  | v, n, c :: rest =>
      if c.isDigit then pyDigitRun (v * 10 + digitVal c) (n + 1) rest
      else (v, n, c :: rest)

/-- Exponent digits with an already-parsed sign; the whole rest must be a
digit run. -/
def pyExpTail (sign : Int) : List Char → Option Int
  | c :: rest =>
      if c.isDigit then
        match pyDigitTail (digitVal c) rest with
        | some n => some (sign * n)
        | none => none
      else none
  | [] => none

/-- The optional exponent part `[eE][+-]?digits` of a Python float literal;
`[]` means "no exponent" (exponent 0). -/
def pyExp? : List Char → Option Int
  | [] => some 0
  | c :: rest =>
      if c = 'e' || c = 'E' then
        match rest with
        | '+' :: r2 => pyExpTail 1 r2
        | '-' :: r2 => pyExpTail (-1) r2
        | r2 => pyExpTail 1 r2
      else none

/-- Unsigned body of a Python float literal: `digits [. [digits]] [exp]` or
`. digits [exp]`, valued exactly as a rational. -/
def pyFloatBody (cs : List Char) : Option ℚ :=
  let r1 := pyDigitRun 0 0 cs
  match r1.2.2 with
  | '.' :: rest2 =>
      let r2 := pyDigitRun 0 0 rest2
      if r1.2.1 = 0 ∧ r2.2.1 = 0 then none
      else
        match pyExp? r2.2.2 with
        | some e =>
            some (((r1.1 : ℚ) + (r2.1 : ℚ) / ((10 : ℚ) ^ r2.2.1)) * (10 : ℚ) ^ e)
        | none => none
  | _ =>
      if r1.2.1 = 0 then none
      else
        match pyExp? r1.2.2 with
        | some e => some ((r1.1 : ℚ) * (10 : ℚ) ^ e)
        | none => none

/-- Python `float(s)` on decimal forms (exact rational value; `inf`/`nan`
forms contain no decimal point and are unreachable under the `"." in
payload` guard of `_store_value`). -/
def pyFloat? (s : String) : Option ℚ :=
  match pyStripList s.toList with
  | '+' :: rest => pyFloatBody rest
  | '-' :: rest => (pyFloatBody rest).map Neg.neg
  | rest => pyFloatBody rest

/-! ## The MQTT client (`UNASMQTTClient`, `mqtt_client.py`) -/

/-- The mutable state of `UNASMQTTClient`: `_data`, `_data_timestamps`,
`_status`, `_last_update`, plus `pendingRefresh` modelling whether a
debounced refresh timer is armed (`_pending_refresh is not None`). The
per-installation topic root `mqtt_root` is fixed at construction. -/
structure ClientState where
  mqttRoot : String
  data : List (String × PyValue)
  dataTimestamps : List (String × ℚ)
  status : String
  lastUpdate : Option ℚ
  pendingRefresh : Bool

/-- `get_mqtt_root(entry_id)` (`const.py`): `f"unas/{entry_id[:8]}"`. -/
def get_mqtt_root (entryId : String) : String :=
  "unas/" ++ (entryId.toList.take 8).asString

/-- `UNASMQTTClient.__init__`. -/
def initClientState (entryId : String) : ClientState :=
  { mqttRoot := get_mqtt_root entryId
    data := []
    dataTimestamps := []
    status := "unknown"
    lastUpdate := none
    pendingRefresh := false }

/-- `UNASMQTTClient._store_value` at instant `now`: empty payload is
ignored; a payload containing a decimal point is tried as a float, any
other as an integer; on parse failure the raw string is kept. A successful
store stamps both maps, moves `_last_update` and (re)arms the debounced
refresh. -/
def storeValue (key payload : String) (now : ℚ) (s : ClientState) : ClientState :=
  if payload = "" then s
  else
    let value : PyValue :=
      if payload.toList.contains '.' then
        match pyFloat? payload with
        | some f => .float f
        | none => .str payload
      else
        match pyInt? payload with
        | some n => .int n
        | none => .str payload
    { s with data := dictSet s.data key value
           , dataTimestamps := dictSet s.dataTimestamps key now
           , lastUpdate := some now
           , pendingRefresh := true }

/-- `UNASMQTTClient._store_attributes` at instant `now`; `jl` is
`json.loads`, with `none` standing for a raised `JSONDecodeError` (which
the method swallows, leaving the state unchanged). -/
def storeAttributes (jl : String → Option PyJson) (key payload : String) (now : ℚ)
    (s : ClientState) : ClientState :=
  match jl payload with
  | some v =>
      { s with data := dictSet s.data (key ++ "_attributes") (.json v)
             , dataTimestamps := dictSet s.dataTimestamps (key ++ "_attributes") now
             , lastUpdate := some now
             , pendingRefresh := true }
  | none => s

/-- `UNASMQTTClient._handle_one_part`. -/
def handleOnePart (parts : List String) (payload : String) (s : ClientState) : ClientState :=
  if parts.getD 0 "" = "availability" then
    { s with status := payload, pendingRefresh := true }
  else s

/-- `UNASMQTTClient._handle_two_part`. -/
def handleTwoPart (jl : String → Option PyJson) (parts : List String) (payload : String)
    (now : ℚ) (s : ClientState) : ClientState :=
  let category := parts.getD 0 ""
  let item := parts.getD 1 ""
  if category = "system" then storeValue ("unas_" ++ item) payload now s
  else if category = "smb" then
    if item = "connections" then storeValue "unas_smb_connections" payload now s
    else if item = "clients" then storeAttributes jl "unas_smb_connections" payload now s
    else s
  else if category = "nfs" then
    if item = "mounts" then storeValue "unas_nfs_mounts" payload now s
    else if item = "clients" then storeAttributes jl "unas_nfs_mounts" payload now s
    else s
  else if category = "control" then storeValue item payload now s
  else s

/-- `UNASMQTTClient._handle_three_part`. -/
def handleThreePart (parts : List String) (payload : String) (now : ℚ)
    (s : ClientState) : ClientState :=
  let category := parts.getD 0 ""
  let identifier := parts.getD 1 ""
  let metric := parts.getD 2 ""
  if category = "hdd" || category = "nvme" then
    storeValue ("unas_" ++ category ++ "_" ++ identifier ++ "_" ++ metric) payload now s
  else if category = "pool" then
    storeValue ("unas_pool" ++ identifier ++ "_" ++ metric) payload now s
  else if category = "control" ∧ identifier = "fan" ∧ metric = "mode" then
    storeValue "fan_mode" payload now s
  else s

/-- `UNASMQTTClient._handle_four_part`. -/
def handleFourPart (parts : List String) (payload : String) (now : ℚ)
    (s : ClientState) : ClientState :=
  if parts.take 3 = ["control", "fan", "curve"] then
    storeValue ("fan_curve_" ++ parts.getD 3 "") payload now s
  else s

/-- Boolean prefix test on character lists (Python `str.startswith`). -/
def listStartsWith : List Char → List Char → Bool
  | [], _ => true
  | _ :: _, [] => false
  | a :: as, b :: bs => a = b && listStartsWith as bs

/-- Python `s.startswith(p)`. -/
def pyStartsWith (s p : String) : Bool :=
  listStartsWith p.toList s.toList

/-- `str.split(sep)` for a one-character separator: always returns at
least one (possibly empty) piece. -/
def splitChar (sep : Char) (cs : List Char) : List (List Char) :=
  cs.foldr
    (fun c acc =>
      match acc with
      | h :: t => if c = sep then [] :: h :: t else (c :: h) :: t
      | [] => [[c]])
    [[]]

/-- `UNASMQTTClient._handle_message` at instant `now`: ignore topics
outside this installation's root, then dispatch on the number of
`/`-separated segments after the root. -/
def handleMessage (jl : String → Option PyJson) (topic payload : String) (now : ℚ)
    (s : ClientState) : ClientState :=
  let rootL := s.mqttRoot.toList
  let tl := topic.toList
  if listStartsWith rootL tl then
    let parts := (splitChar '/' ((tl.drop rootL.length).dropWhile (· = '/'))).map List.asString
    match parts with
    | [] => s
    | _ =>
      if parts.length = 1 then handleOnePart parts payload s
      else if parts.length = 2 then handleTwoPart jl parts payload now s
      else if parts.length = 3 then handleThreePart parts payload now s
      else if parts.length = 4 then handleFourPart parts payload now s
      else s
  else s

/-- Keys exempt from staleness eviction (`_cleanup_stale_data`'s
`startswith(("fan_curve_", "fan_mode", "monitor_interval"))` denylist). -/
def configExempt (key : String) : Bool :=
  pyStartsWith key "fan_curve_" || pyStartsWith key "fan_mode"
    || pyStartsWith key "monitor_interval"

/-- The `stale_keys` list collected by `_cleanup_stale_data`: every
non-exempt key whose timestamp is more than 120 seconds old. -/
def staleKeysOf (now : ℚ) (ts : List (String × ℚ)) : List String :=
  (ts.filter (fun kt => !(configExempt kt.1) && decide (now - kt.2 > 120))).map Prod.fst

/-- `UNASMQTTClient._cleanup_stale_data` at instant `now`: collect the
stale keys, then delete each from both `_data` and `_data_timestamps`. -/
def cleanupStaleData (now : ℚ) (s : ClientState) : ClientState :=
  let staleKeys := staleKeysOf now s.dataTimestamps
  { s with data := staleKeys.foldl dictDel s.data
         , dataTimestamps := staleKeys.foldl dictDel s.dataTimestamps }

/-- `UNASMQTTClient.get_data` at instant `now`: evict stale entries, then
return (state after eviction, copy of the data dict). -/
def getData (now : ℚ) (s : ClientState) : ClientState × List (String × PyValue) :=
  let s2 := cleanupStaleData now s
  (s2, s2.data)

/-- `UNASMQTTClient.is_available` at instant `now`. -/
def isAvailable (now : ℚ) (s : ClientState) : Bool :=
  if s.status = "offline" then false
  else
    match s.lastUpdate with
    | none => false
    | some last => if now - last > 120 then false else true

/-! ## The remote session manager (`SSHManager`, `ssh_manager.py`) -/

/-- The facts about the appliance that the `scripts_installed` shell
probe tests: presence of the two daemon files, importability of the
`paho.mqtt.client` library, and presence of `mosquitto_sub`. -/
structure RemoteHost where
  monitorScriptPresent : Bool
  fanScriptPresent : Bool
  pahoImportable : Bool
  mosquittoSubPresent : Bool

/-- Stdout of the chained shell command run by `scripts_installed`:
`test -f /root/unas_monitor.py && test -f /root/fan_control.sh &&
python3 -c 'import paho.mqtt.client' && which mosquitto_sub && echo 'yes'
|| echo 'no'` — `yes` exactly when all four conditions hold. -/
def scriptsInstalledStdout (h : RemoteHost) : String :=
  if h.monitorScriptPresent && h.fanScriptPresent
      && h.pahoImportable && h.mosquittoSubPresent then "yes\n" else "no\n"

/-- `SSHManager.scripts_installed`: strip the stdout and compare to `yes`. -/
def scripts_installed (h : RemoteHost) : Bool :=
  pyStrip (scriptsInstalledStdout h) = "yes"

/-- Python truthiness of a JSON value (`if result.get("data"):`). -/
def pyTruthy : PyJson → Bool
  | .null => false
  | .bool b => b
  | .int n => !(n = 0)
  | .float q => !(q = 0)
  | .str s => !(s = "")
  | .arr xs => !xs.isEmpty
  | .obj fs => !fs.isEmpty

/-- `dict.get(k)` on a JSON object, `None` when absent. -/
def jsonGet (j : PyJson) (k : String) : PyJson :=
  match j with
  | .obj fields => (dictGet? fields k).getD .null
  | _ => .null

/-- `SSHManager.execute_backup_api`, given the outcome of the underlying
`execute_command` (an `.error` is a raised SSH exception, which
propagates) and the `json.loads` library function `jl`: empty stdout and
stdout that fails to decode both yield an empty dict rather than an
error. -/
def execute_backup_api (jl : String → Option PyJson)
    (stdout : Except Unit String) : Except Unit PyJson :=
  match stdout with
  | .error e => .error e
  | .ok out =>
      if pyStrip out = "" then .ok (.obj [])
      else
        match jl out with
        | some v => .ok v
        | none => .ok (.obj [])

/-! ## The polling coordinator (`UNASDataUpdateCoordinator`, `__init__.py`) -/

/-- The composite structure built by `_async_update_data` (the `data`
dict). `backup_tasks = none` models the `"backup_tasks"` key being absent
from the dict. -/
structure CoordData where
  scripts_installed : Bool
  ssh_connected : Bool
  monitor_running : Bool
  fan_control_running : Bool
  mqtt_data : List (String × PyValue)
  backup_tasks : Option PyJson

/-- Outcomes of the remote operations awaited during one poll cycle, in
program order; `.error` is a raised exception. `jsonLoads` is the
`json.loads` library function used inside `execute_backup_api`. -/
structure PollWorld where
  scriptsInstalledResult : Except Unit Bool
  deployScriptsResult : Except Unit Unit
  monitorRunningResult : Except Unit Bool
  fanControlRunningResult : Except Unit Bool
  backupApiStdout : Except Unit String
  discoveryResult : Except Unit Unit
  jsonLoads : String → Option PyJson

/-- The value bound to `data["backup_tasks"]` from a successful
`execute_backup_api` result: `result["data"]` if `result.get("data")` is
truthy, else `[]`. A non-dict result raises on `.get` and is caught by the
inner `except`, yielding `[]` as well. -/
def backupTasksOf (res : PyJson) : PyJson :=
  match res with
  | .obj _ => if pyTruthy (jsonGet res "data") then jsonGet res "data" else .arr []
  | _ => .arr []

/-- `UNASDataUpdateCoordinator._async_update_data`. Returns the produced
`data` dict (or the raised `UpdateFailed` message when the MQTT
integration is absent) together with whether `deploy_scripts` was invoked
this cycle. The `data` dict starts from all-false flags and the current
telemetry snapshot; every exception raised inside the `try` block is
caught by the outer `except`, which falls through to `return data` with
whatever had been filled in up to the failure point. -/
def asyncUpdateData (mqttLoaded : Bool) (snapshot : List (String × PyValue))
    (w : PollWorld) (haveSensorCb haveButtonCb haveSwitchCb : Bool) :
    Except String CoordData × Bool :=
  if mqttLoaded = false then
    (.error "MQTT integration is required but not found", false)
  else
    let d0 : CoordData :=
      { scripts_installed := false
        ssh_connected := false
        monitor_running := false
        fan_control_running := false
        mqtt_data := snapshot
        backup_tasks := none }
    match w.scriptsInstalledResult with
    | .error _ => (.ok d0, false)
    | .ok si =>
      let deployCalled := !si
      let deployRes : Except Unit Unit := if si then .ok () else w.deployScriptsResult
      match deployRes with
      | .error _ => (.ok d0, deployCalled)
      | .ok _ =>
        match w.monitorRunningResult with
        | .error _ => (.ok d0, deployCalled)
        | .ok mr =>
          match w.fanControlRunningResult with
          | .error _ => (.ok d0, deployCalled)
          | .ok fr =>
            let d1 : CoordData :=
              { d0 with scripts_installed := si, ssh_connected := true
                      , monitor_running := mr, fan_control_running := fr }
            let bt : PyJson :=
              match execute_backup_api w.jsonLoads w.backupApiStdout with
              | .error _ => .arr []
              | .ok res => backupTasksOf res
            let d2 : CoordData := { d1 with backup_tasks := some bt }
            if haveSensorCb || haveButtonCb || haveSwitchCb then
              match w.discoveryResult with
              | .error _ => (.ok d2, deployCalled)
              | .ok _ => (.ok d2, deployCalled)
            else (.ok d2, deployCalled)

/-- The discovered-identifier attributes set up by
`UNASDataUpdateCoordinator.__init__`. A field holding `none` models a
Python attribute that was never assigned, so that reading it raises
`AttributeError`. -/
structure CoordAttrs where
  discovered_bays : Option (Finset String)
  discovered_nvmes : Option (Finset String)
  discovered_pools : Option (Finset String)
  discovered_backup_task_sensors : Option (Finset String)
  discovered_backup_task_buttons : Option (Finset String)
  discovered_backup_task_switches : Option (Finset String)
  discovered_shares : Option (Finset String)

/-- `UNASDataUpdateCoordinator.__init__` assigns exactly six
discovered-identifier sets — `discovered_shares` is not among them. -/
def coordinatorInitAttrs : CoordAttrs :=
  { discovered_bays := some ∅
    discovered_nvmes := some ∅
    discovered_pools := some ∅
    discovered_backup_task_sensors := some ∅
    discovered_backup_task_buttons := some ∅
    discovered_backup_task_switches := some ∅
    discovered_shares := none }

inductive PyExn where
  | attributeError : String → PyExn
deriving DecidableEq

/-- Reading `coordinator.discovered_shares`: raises `AttributeError` when
the attribute was never assigned. -/
def getDiscoveredShares (c : CoordAttrs) : Except PyExn (Finset String) :=
  match c.discovered_shares with
  | some s => .ok s
  | none => .error (.attributeError "discovered_shares")

/-! ## Resource discovery (`sensor.py`) -/

/-- Boolean substring test (Python `sub in s`). -/
def strContainsSub (s sub : String) : Bool :=
  s.toList.tails.any (fun t => listStartsWith sub.toList t)

/-- The nine per-bay sensor suffixes of `DRIVE_SENSORS`. -/
def DRIVE_SENSOR_SUFFIXES : List String :=
  ["temperature", "model", "serial", "rpm", "firmware", "status",
   "total_size", "power_on_hours", "bad_sectors"]

/-- `{key.split("_")[2] for key in mqtt_data if
key.startswith("unas_hdd_") and "_temperature" in key}` — the bays
detected from the telemetry snapshot. -/
def detectedBays (mqttKeys : List String) : Finset String :=
  ((mqttKeys.filter
      (fun k => pyStartsWith k "unas_hdd_" && strContainsSub k "_temperature")).map
    (fun k => ((splitChar '_' k.toList).map List.asString).getD 2 "")).toFinset

/-- Observable outcome of one `_discover_and_add_drive_sensors` pass:
which bays had their entities/devices removed, which retained topics were
tombstoned, which bays had entities registered, and the resulting
`discovered_bays` set. -/
structure DriveDiscoveryResult where
  removedBays : Finset String
  tombstoneTopics : Finset String
  registeredBays : Finset String
  knownAfter : Finset String
deriving DecidableEq

/-- `_discover_and_add_drive_sensors`, as a function of the telemetry
snapshot's keys and the coordinator's current `discovered_bays` set
(iteration order over the Python sets affects only log text and
registration order, not the sets produced). -/
def discoverDriveSensors (root : String) (mqttKeys : List String)
    (known : Finset String) : DriveDiscoveryResult :=
  let detected := detectedBays mqttKeys
  let missing := known \ detected
  let known1 := known \ missing
  let tomb := missing.biUnion
    (fun bay =>
      (DRIVE_SENSOR_SUFFIXES.map
        (fun suf => root ++ "/hdd/" ++ bay ++ "/" ++ suf)).toFinset)
  let newBays := detected \ known1
  if newBays = ∅ then
    { removedBays := missing, tombstoneTopics := tomb
      registeredBays := ∅, knownAfter := known1 }
  else
    -- `entities` holds one sensor per (new bay, suffix) pair; `if entities:`
    -- tests its length
    let entitiesLen := newBays.card * DRIVE_SENSOR_SUFFIXES.length
    if entitiesLen = 0 then
      { removedBays := missing, tombstoneTopics := tomb
        registeredBays := ∅, knownAfter := known1 }
    else
      { removedBays := missing, tombstoneTopics := tomb
        registeredBays := newBays, knownAfter := known1 ∪ newBays }

/-- `^unas_share_(.+)_usage$` applied to one key: the greedy capture is
everything strictly between the prefix and the final `_usage`. -/
def sharePatternMatch (k : String) : Option String :=
  let cs := k.toList
  let p := "unas_share_".toList
  let suf := "_usage".toList
  if listStartsWith p cs
      && decide (p.length + suf.length < cs.length)
      && listStartsWith suf.reverse cs.reverse then
    some (((cs.drop p.length).reverse.drop suf.length).reverse.asString)
  else none

/-- The shares detected from the telemetry snapshot in
`_discover_and_add_share_sensors`. -/
def detectedShares (mqttKeys : List String) : Finset String :=
  (mqttKeys.filterMap sharePatternMatch).toFinset

/-- `_discover_and_add_share_sensors` up to its first read of
`coordinator.discovered_shares` (line `missing_shares =
coordinator.discovered_shares - detected_shares`): the detected set is
computed from the snapshot, then the known set is read from the
coordinator — which raises `AttributeError` if the attribute was never
assigned. On success it returns the (missing, detected) pair the rest of
the reconciliation pass works from. -/
def discoverShareSensorsDiff (c : CoordAttrs) (mqttKeys : List String) :
    Except PyExn (Finset String × Finset String) := do
  let detected := detectedShares mqttKeys
  let known ← getDiscoveredShares c
  .ok (known \ detected, detected)

/-! ## Spec-side formulations (for refinement comparison) and fixtures -/

/-- The value the spec says a non-empty payload is stored as: `float(P)` if
`P` contains a decimal point and parses as a float, else `int(P)` if `P`
has no decimal point and parses as an integer, else the raw string `P`. -/
def storeValueSpecValue (p : String) : PyValue :=
  if p.toList.contains '.' then
    match pyFloat? p with
    | some f => .float f
    | none => .str p
  else
    match pyInt? p with
    | some n => .int n
    | none => .str p

/-- Availability as the spec words it: false if status equals the offline
sentinel; false if no message has ever updated any key; false if the most
recent update is older than 120 seconds; true otherwise. -/
def isAvailableSpec (now : ℚ) (s : ClientState) : Bool :=
  !(s.status = "offline")
    && (match s.lastUpdate with
        | none => false
        | some t => decide (now - t ≤ 120))

/-- Previously-known composite data for the poll-cycle counterexample: the
coordinator had a successful cycle behind it, including one fetched backup
task. -/
def cexPrevData : CoordData :=
  { scripts_installed := true
    ssh_connected := true
    monitor_running := true
    fan_control_running := true
    mqtt_data := [("unas_cpu_temp", .int 45)]
    backup_tasks := some (.arr [.obj [("id", .str "task-1")]]) }

/-- A poll cycle in which the very first SSH operation
(`scripts_installed`) raises. -/
def cexWorld : PollWorld :=
  { scriptsInstalledResult := .error ()
    deployScriptsResult := .ok ()
    monitorRunningResult := .ok true
    fanControlRunningResult := .ok true
    backupApiStdout := .ok ""
    discoveryResult := .ok ()
    jsonLoads := fun _ => none }

/-- A client state with one evictable key and one exempt key, both written
at t = 0 (for concrete staleness runs). -/
def staleFixtureState : ClientState :=
  { initClientState "e" with
      data := [("x", PyValue.int 1), ("fan_mode", PyValue.str "auto")]
    , dataTimestamps := [("x", 0), ("fan_mode", 0)] }

/-! ## Helper lemmas about the dict model -/

theorem dictGet?_set_self {α : Type} (d : List (String × α)) (k : String) (v : α) :
    dictGet? (dictSet d k v) k = some v := by
  induction d with
  | nil => simp [dictSet, dictGet?]
  | cons p rest ih =>
      rcases p with ⟨k', v'⟩
      by_cases h : k' = k
      · subst h; simp [dictSet, dictGet?]
      · simp [dictSet, dictGet?, h, ih]

theorem dictGet?_del {α : Type} (d : List (String × α)) (k k' : String) :
    dictGet? (dictDel d k') k = if k = k' then none else dictGet? d k := by
  induction d with
  | nil => simp [dictDel, dictGet?]
  | cons p rest ih =>
      rcases p with ⟨k'', v''⟩
      by_cases h : k'' = k'
      · subst h
        by_cases h2 : k'' = k
        · subst h2; simp [dictDel, dictGet?, List.filter_cons] at ih ⊢; simpa using ih
        · simp [dictDel, dictGet?, List.filter_cons, h2, Ne.symm h2] at ih ⊢; simpa using ih
      · by_cases h2 : k'' = k
        · subst h2
          simp [dictDel, dictGet?, List.filter_cons, h]
        · simp [dictDel, dictGet?, List.filter_cons, h, h2] at ih ⊢; simpa using ih

theorem dictGet?_foldl_del_none {α : Type} (ks : List String) (e : List (String × α))
    (k : String) (h : dictGet? e k = none) : dictGet? (ks.foldl dictDel e) k = none := by
  induction ks generalizing e with
  | nil => simpa using h
  | cons b bs ihb =>
      have hb : dictGet? (dictDel e b) k = none := by
        rw [dictGet?_del]
        by_cases hkb : k = b <;> simp [hkb, h]
      simpa using ihb (dictDel e b) hb

theorem dictGet?_foldl_del_of_mem {α : Type} (ks : List String) (d : List (String × α))
    (k : String) (h : k ∈ ks) : dictGet? (ks.foldl dictDel d) k = none := by
  induction ks generalizing d with
  | nil => cases h
  | cons a as ih =>
      rcases List.mem_cons.mp h with rfl | h2
      · refine dictGet?_foldl_del_none as (dictDel d k) k ?_
        rw [dictGet?_del]; simp
      · exact ih (dictDel d a) h2

theorem dictGet?_foldl_del_of_not_mem {α : Type} (ks : List String) (d : List (String × α))
    (k : String) (h : k ∉ ks) : dictGet? (ks.foldl dictDel d) k = dictGet? d k := by
  induction ks generalizing d with
  | nil => rfl
  | cons a as ih =>
      have hka : k ≠ a := fun he => h (he ▸ List.mem_cons_self a as)
      have has : k ∉ as := fun hm => h (List.mem_cons_of_mem a hm)
      calc dictGet? ((a :: as).foldl dictDel d) k
          = dictGet? (as.foldl dictDel (dictDel d a)) k := rfl
        _ = dictGet? (dictDel d a) k := ih (dictDel d a) has
        _ = dictGet? d k := by rw [dictGet?_del]; simp [hka]

theorem mem_of_dictGet? {α : Type} (d : List (String × α)) (k : String) (v : α)
    (h : dictGet? d k = some v) : (k, v) ∈ d := by
  induction d with
  | nil => simp [dictGet?] at h
  | cons p rest ih =>
      rcases p with ⟨k', v'⟩
      by_cases he : k' = k
      · subst he
        simp [dictGet?] at h
        simp [h]
      · simp [dictGet?, he] at h
        exact List.mem_cons_of_mem _ (ih h)

theorem dictSet_entry_of_fst_eq {α : Type} (d : List (String × α)) (k : String) (v : α)
    (hd : dictNodup d) :
    ∀ p ∈ dictSet d k v, p.1 = k → p = (k, v) := by
  induction d with
  | nil =>
      intro p hp _
      simpa [dictSet] using hp
  | cons q rest ih =>
      rcases q with ⟨k', v'⟩
      have hnd : dictNodup rest := (List.nodup_cons.mp hd).2
      have hk' : k' ∉ rest.map Prod.fst := (List.nodup_cons.mp hd).1
      intro p hp hfst
      by_cases he : k' = k
      · subst he
        simp [dictSet] at hp
        rcases hp with rfl | hp2
        · rfl
        · exact absurd (hfst ▸ List.mem_map_of_mem Prod.fst hp2) hk'
      · simp [dictSet, he] at hp
        rcases hp with rfl | hp2
        · exact absurd hfst he
        · exact ih hnd p hp2 hfst

/-! ## Claim theorems -/

/-- Claim C8: for every value key, a message with an empty payload leaves
the store completely unchanged — no overwrite, no timestamp refresh, the
last-update marker does not move, and no refresh is scheduled
(`_store_value` returns before touching any state). -/
theorem empty_payload_leaves_store_unchanged :
    ∀ (key : String) (now : ℚ) (s : ClientState), storeValue key "" now s = s := by
  intro key now s
  rfl

/-- Claim C5: `is_available()` is false exactly when the status is the
offline sentinel, no message has ever updated a key, or the most recent
key update is older than 120 seconds (equivalence with the spec's
formulation), and a stored `"offline"` status forces false regardless of
the rest of the state. -/
theorem is_available_rule :
    (∀ (now : ℚ) (s : ClientState), isAvailable now s = isAvailableSpec now s) ∧
    (∀ (now : ℚ) (s : ClientState),
        isAvailable now { s with status := "offline" } = false) := by
  constructor
  · intro now s
    unfold isAvailable isAvailableSpec
    by_cases hst : s.status = "offline"
    · simp [hst]
    · cases hlu : s.lastUpdate with
      | none => simp [hst, hlu]
      | some t =>
          by_cases hgt : now - t > 120
          · simp [hst, hlu, hgt, not_le.mpr hgt]
          · simp [hst, hlu, hgt, not_lt.mp hgt]
  · intro now s
    rfl

/-- Claim C9: the coordinator constructor initializes only the bay, NVMe,
pool and three backup-task discovered sets, never `discovered_shares`, so
the share-discovery pass on a freshly constructed coordinator raises
`AttributeError` at its first read of that attribute instead of completing
the diff. -/
theorem share_discovery_attribute_error :
    coordinatorInitAttrs.discovered_shares = none ∧
    (∀ mqttKeys : List String,
        discoverShareSensorsDiff coordinatorInitAttrs mqttKeys
          = .error (.attributeError "discovered_shares")) :=
  ⟨rfl, fun _ => rfl⟩

/-- Claim C6: `scripts_installed` reports deployed exactly when all four
probed conditions hold (both daemon script files, the importable
`paho.mqtt.client` library, and the `mosquitto_sub` CLI tool); with the
library missing but both files present it reports false; and a poll cycle
that sees a false `scripts_installed` invokes `deploy_scripts`. -/
theorem scripts_installed_four_conditions :
    (∀ h : RemoteHost,
        scripts_installed h
          = (h.monitorScriptPresent && h.fanScriptPresent
              && h.pahoImportable && h.mosquittoSubPresent)) ∧
    scripts_installed ⟨true, true, false, true⟩ = false ∧
    (∀ (snapshot : List (String × PyValue)) (w : PollWorld) (c1 c2 c3 : Bool),
        (asyncUpdateData true snapshot
            { w with scriptsInstalledResult := .ok false } c1 c2 c3).2 = true) := by
  refine ⟨?_, rfl, ?_⟩
  · intro h
    rcases h with ⟨a, b, c, d⟩
    cases a <;> cases b <;> cases c <;> cases d <;> rfl
  · intro snapshot w c1 c2 c3
    rcases w with ⟨ws, wd, wm, wf, wb, wdisc, wj⟩
    cases wd <;> cases wm <;> cases wf <;> cases wdisc <;>
      cases c1 <;> cases c2 <;> cases c3 <;> rfl

/-- Claim C7: `execute_backup_api` turns empty stdout and stdout that
fails JSON decoding into an empty dict instead of raising, and a poll
cycle whose backup-task fetch raises substitutes an empty task list while
the rest of the cycle's data stands. -/
theorem backup_api_degrades_to_empty :
    (∀ (jl : String → Option PyJson) (out : String),
        ∃ v, execute_backup_api jl (.ok out) = .ok v) ∧
    (∀ (jl : String → Option PyJson) (out : String),
        pyStrip out = "" → execute_backup_api jl (.ok out) = .ok (.obj [])) ∧
    (∀ (jl : String → Option PyJson) (out : String),
        jl out = none → execute_backup_api jl (.ok out) = .ok (.obj [])) ∧
    (∀ (snapshot : List (String × PyValue)) (w : PollWorld) (si mr fr c1 c2 c3 : Bool),
        (asyncUpdateData true snapshot
            { w with scriptsInstalledResult := .ok si
                   , deployScriptsResult := .ok ()
                   , monitorRunningResult := .ok mr
                   , fanControlRunningResult := .ok fr
                   , backupApiStdout := .error () } c1 c2 c3).1
          = .ok { scripts_installed := si, ssh_connected := true
                , monitor_running := mr, fan_control_running := fr
                , mqtt_data := snapshot, backup_tasks := some (.arr []) }) := by
  refine ⟨?_, ?_, ?_, ?_⟩
  · intro jl out
    by_cases hstrip : pyStrip out = ""
    · exact ⟨.obj [], by simp [execute_backup_api, hstrip]⟩
    · cases hjl : jl out with
      | none => exact ⟨.obj [], by simp [execute_backup_api, hstrip, hjl]⟩
      | some v => exact ⟨v, by simp [execute_backup_api, hstrip, hjl]⟩
  · intro jl out hstrip
    simp [execute_backup_api, hstrip]
  · intro jl out hjl
    by_cases hstrip : pyStrip out = ""
    · simp [execute_backup_api, hstrip]
    · simp [execute_backup_api, hstrip, hjl]
  · intro snapshot w si mr fr c1 c2 c3
    cases si <;> cases (w.discoveryResult) <;> cases c1 <;> cases c2 <;> cases c3 <;> rfl

/-- Claim C4 counterexample: with a previous cycle's composite data
holding one fetched backup task, a cycle whose first SSH operation raises
returns a freshly-built structure whose `backup_tasks` key is absent — the
previously-known backup-task list is not carried over, contradicting the
claim that the prior composite data (including that list) is returned with
only the connection flags changed. -/
theorem coordinator_retention_counterexample :
    (asyncUpdateData true cexPrevData.mqtt_data cexWorld true true true).1
        = .ok { scripts_installed := false, ssh_connected := false
              , monitor_running := false, fan_control_running := false
              , mqtt_data := cexPrevData.mqtt_data, backup_tasks := none } ∧
    cexPrevData.backup_tasks = some (.arr [.obj [("id", .str "task-1")]]) ∧
    (none : Option PyJson) ≠ some (.arr [.obj [("id", .str "task-1")]]) := by
  refine ⟨rfl, rfl, ?_⟩
  exact fun h => Option.noConfusion h

/-- Claim C4 (amended): when any exception occurs in a poll cycle after
the messaging-subsystem check, the coordinator's update still returns
normally rather than raising, but the returned structure is rebuilt from
scratch around the current telemetry snapshot: on a failure before the
flag update the connection-status flags are all false and the
`backup_tasks` key is absent — prior cycle data is not carried over. -/
theorem coordinator_exception_returns_fresh_data :
    (∀ (snapshot : List (String × PyValue)) (w : PollWorld) (c1 c2 c3 : Bool),
        ∃ d : CoordData, (asyncUpdateData true snapshot w c1 c2 c3).1 = .ok d) ∧
    (∀ (snapshot : List (String × PyValue)) (w : PollWorld) (c1 c2 c3 : Bool),
        (asyncUpdateData true snapshot
            { w with scriptsInstalledResult := .error () } c1 c2 c3).1
          = .ok { scripts_installed := false, ssh_connected := false
                , monitor_running := false, fan_control_running := false
                , mqtt_data := snapshot, backup_tasks := none }) := by
  constructor
  · intro snapshot w c1 c2 c3
    rcases w with ⟨ws, wd, wm, wf, wb, wdisc, wj⟩
    cases ws with
    | error e => exact ⟨_, rfl⟩
    | ok si =>
        cases si <;> cases wd <;> cases wm <;> cases wf <;> cases wdisc <;>
          cases c1 <;> cases c2 <;> cases c3 <;> exact ⟨_, rfl⟩
  · intro snapshot w c1 c2 c3
    rfl

/-- Claim C1: a non-empty payload routed to a value key is stored — and
appears in the snapshot — as `float(P)` when `P` contains a decimal point
and parses as a float, else as `int(P)` when `P` has no decimal point and
parses as an integer, else as the raw string `P`. -/
theorem store_value_coercion :
    ∀ (s : ClientState) (key payload : String) (now : ℚ),
      payload ≠ "" →
      dictNodup s.dataTimestamps →
      dictGet? (storeValue key payload now s).data key
        = some (storeValueSpecValue payload) ∧
      dictGet? (getData now (storeValue key payload now s)).2 key
        = some (storeValueSpecValue payload) := by
  intro s key payload now hp hnd
  have hsv : storeValue key payload now s
      = { s with data := dictSet s.data key (storeValueSpecValue payload)
               , dataTimestamps := dictSet s.dataTimestamps key now
               , lastUpdate := some now
               , pendingRefresh := true } := by
    unfold storeValue storeValueSpecValue
    simp [hp]
  rw [hsv]
  refine ⟨dictGet?_set_self s.data key (storeValueSpecValue payload), ?_⟩
  show dictGet?
      ((staleKeysOf now (dictSet s.dataTimestamps key now)).foldl dictDel
        (dictSet s.data key (storeValueSpecValue payload))) key = _
  have hnotmem : key ∉ staleKeysOf now (dictSet s.dataTimestamps key now) := by
    intro hmem
    rcases List.mem_map.mp hmem with ⟨p, hpfilter, hpfst⟩
    rcases List.mem_filter.mp hpfilter with ⟨hpmem, hpcond⟩
    have hpeq : p = (key, now) :=
      dictSet_entry_of_fst_eq s.dataTimestamps key now hnd p hpmem hpfst
    rw [hpeq] at hpcond
    simp at hpcond
    exact absurd hpcond.2 (by norm_num)
  rw [dictGet?_foldl_del_of_not_mem _ _ _ hnotmem]
  exact dictGet?_set_self _ _ _

/-- Witness for the value-coercion claim at the spec's three example
payloads: `"38"` is stored as the integer 38, `"38.5"` as the float 38.5,
`"v2.1"` as the raw string. -/
theorem store_value_coercion_witness :
    (("38" : String) ≠ "" ∧ dictNodup (initClientState "e").dataTimestamps) ∧
    dictGet? (getData 0 (storeValue "k" "38" 0 (initClientState "e"))).2 "k"
      = some (.int 38) ∧
    dictGet? (storeValue "k" "38.5" 0 (initClientState "e")).data "k"
      = some (.float (77 / 2)) ∧
    dictGet? (storeValue "k" "v2.1" 0 (initClientState "e")).data "k"
      = some (.str "v2.1") := by
  refine ⟨⟨by decide, by decide⟩, ?_, ?_, ?_⟩
  · exact ((store_value_coercion (initClientState "e") "k" "38" 0 (by decide)
      (by decide)).2).trans (by rfl)
  · have h := (store_value_coercion (initClientState "e") "k" "38.5" 0 (by decide)
      (by decide)).1
    rw [h]
    have h2 : storeValueSpecValue "38.5"
        = .float ((((38 : ℕ) : ℚ) + ((5 : ℕ) : ℚ) / (10 : ℚ) ^ (1 : ℕ))
            * (10 : ℚ) ^ (0 : ℤ)) := rfl
    have h3 : ((((38 : ℕ) : ℚ) + ((5 : ℕ) : ℚ) / (10 : ℚ) ^ (1 : ℕ))
        * (10 : ℚ) ^ (0 : ℤ)) = 77 / 2 := by norm_num
    rw [h2, h3]
  · exact ((store_value_coercion (initClientState "e") "k" "v2.1" 0 (by decide)
      (by decide)).1).trans (by rfl)

/-- Claim C2: on a snapshot read, every non-exempt key whose last write is
more than 120 seconds old is absent from the returned snapshot and
destructively deleted from both the value map and the timestamp map, while
keys on the configuration denylist (`fan_curve_`, `fan_mode`,
`monitor_interval`) are never evicted. -/
theorem stale_key_eviction :
    (∀ (s : ClientState) (now t : ℚ) (key : String),
        dictGet? s.dataTimestamps key = some t →
        configExempt key = false →
        now - t > 120 →
        dictGet? (getData now s).2 key = none ∧
        dictGet? (getData now s).1.data key = none ∧
        dictGet? (getData now s).1.dataTimestamps key = none) ∧
    (∀ (s : ClientState) (now : ℚ) (key : String),
        configExempt key = true →
        dictGet? (cleanupStaleData now s).data key = dictGet? s.data key ∧
        dictGet? (cleanupStaleData now s).dataTimestamps key
          = dictGet? s.dataTimestamps key) := by
  constructor
  · intro s now t key hts hex hold
    have hmem : key ∈ staleKeysOf now s.dataTimestamps := by
      refine List.mem_map.mpr
        ⟨(key, t), List.mem_filter.mpr ⟨mem_of_dictGet? _ _ _ hts, ?_⟩, rfl⟩
      simp [hex, hold]
    exact ⟨dictGet?_foldl_del_of_mem _ _ _ hmem,
      dictGet?_foldl_del_of_mem _ _ _ hmem,
      dictGet?_foldl_del_of_mem _ _ _ hmem⟩
  · intro s now key hex
    have hnot : key ∉ staleKeysOf now s.dataTimestamps := by
      intro hmem
      rcases List.mem_map.mp hmem with ⟨p, hpf, hpfst⟩
      rcases List.mem_filter.mp hpf with ⟨_, hcond⟩
      rw [hpfst] at hcond
      simp [hex] at hcond
    exact ⟨dictGet?_foldl_del_of_not_mem _ _ _ hnot,
      dictGet?_foldl_del_of_not_mem _ _ _ hnot⟩

/-- Witness for the staleness claim: a key written at t=0 and read at
t=121 is evicted; `fan_mode` written at t=0 survives the same read. -/
theorem stale_key_eviction_witness :
    ((121 : ℚ) - 0 > 120) ∧
    dictGet? (getData 121 staleFixtureState).2 "x" = none ∧
    dictGet? (cleanupStaleData 121 staleFixtureState).dataTimestamps "fan_mode"
      = some 0 := by
  refine ⟨by norm_num, ?_, ?_⟩
  · exact (stale_key_eviction.1 staleFixtureState 121 0 "x" rfl rfl (by norm_num)).1
  · exact ((stale_key_eviction.2 staleFixtureState 121 "fan_mode" rfl).2).trans (by rfl)

theorem listStartsWith_append (l t : List Char) : listStartsWith l (l ++ t) = true := by
  induction l with
  | nil => rfl
  | cons a as ih => simp [listStartsWith, ih]

/-- A message on this installation's one-segment availability topic only
sets `_status` and re-arms the debounced refresh. -/
theorem handleMessage_availability (jl : String → Option PyJson) (s : ClientState)
    (payload : String) (now : ℚ) :
    handleMessage jl (s.mqttRoot ++ "/availability") payload now s
      = { s with status := payload, pendingRefresh := true } := by
  have htl : (s.mqttRoot ++ "/availability").toList
      = s.mqttRoot.toList ++ "/availability".toList := by
    simp [String.toList, String.data_append]
  simp only [handleMessage, htl, listStartsWith_append, if_true, List.drop_left]
  rfl

theorem availability_fold_lastUpdate (jl : String → Option PyJson)
    (msgs : List (String × ℚ)) :
    ∀ st : ClientState,
      (msgs.foldl
          (fun acc m => handleMessage jl (acc.mqttRoot ++ "/availability") m.1 m.2 acc)
          st).lastUpdate
        = st.lastUpdate := by
  induction msgs with
  | nil => intro st; rfl
  | cons m ms ih =>
      intro st
      simp only [List.foldl_cons]
      rw [handleMessage_availability]
      exact ih _

theorem isAvailable_of_no_update (now : ℚ) (s : ClientState) (h : s.lastUpdate = none) :
    isAvailable now s = false := by
  unfold isAvailable
  rw [h]
  by_cases hst : s.status = "offline" <;> simp [hst]

/-- Claim C10: a message on the one-segment availability topic updates
only the status field and never the last-update marker (data and
timestamp maps are untouched); hence after receiving exclusively
availability messages and no data-key messages, `is_available()` still
returns false because no key update was ever recorded. -/
theorem availability_topic_never_updates_marker :
    (∀ (jl : String → Option PyJson) (s : ClientState) (payload : String) (now : ℚ),
        (handleMessage jl (s.mqttRoot ++ "/availability") payload now s).data = s.data ∧
        (handleMessage jl (s.mqttRoot ++ "/availability") payload now s).dataTimestamps
          = s.dataTimestamps ∧
        (handleMessage jl (s.mqttRoot ++ "/availability") payload now s).lastUpdate
          = s.lastUpdate ∧
        (handleMessage jl (s.mqttRoot ++ "/availability") payload now s).status
          = payload) ∧
    (∀ (jl : String → Option PyJson) (entryId : String) (msgs : List (String × ℚ))
        (now : ℚ),
        (msgs.foldl
            (fun acc m => handleMessage jl (acc.mqttRoot ++ "/availability") m.1 m.2 acc)
            (initClientState entryId)).lastUpdate = none ∧
        isAvailable now
          (msgs.foldl
            (fun acc m => handleMessage jl (acc.mqttRoot ++ "/availability") m.1 m.2 acc)
            (initClientState entryId)) = false) := by
  constructor
  · intro jl s payload now
    rw [handleMessage_availability]
    exact ⟨rfl, rfl, rfl, rfl⟩
  · intro jl entryId msgs now
    have hlu := availability_fold_lastUpdate jl msgs (initClientState entryId)
    exact ⟨hlu.trans rfl, isAvailable_of_no_update now _ (hlu.trans rfl)⟩

/-- One drive-bay discovery pass, in closed form: it removes exactly
`known − detected`, tombstones exactly those bays' nine retained topics,
registers exactly `detected − known`, and ends with `known = detected`. -/
theorem discoverDriveSensors_eq (root : String) (keys : List String)
    (known : Finset String) :
    discoverDriveSensors root keys known
      = { removedBays := known \ detectedBays keys
        , tombstoneTopics := (known \ detectedBays keys).biUnion
            (fun bay => (DRIVE_SENSOR_SUFFIXES.map
              (fun suf => root ++ "/hdd/" ++ bay ++ "/" ++ suf)).toFinset)
        , registeredBays := detectedBays keys \ known
        , knownAfter := detectedBays keys } := by
  simp only [discoverDriveSensors]
  have hk1 : known \ (known \ detectedBays keys) = known ∩ detectedBays keys :=
    Finset.sdiff_sdiff_self_left known _
  have hnew : detectedBays keys \ (known \ (known \ detectedBays keys))
      = detectedBays keys \ known := by
    rw [hk1]
    ext x
    simp only [Finset.mem_sdiff, Finset.mem_inter]
    tauto
  by_cases hempty : detectedBays keys \ (known \ (known \ detectedBays keys)) = ∅
  · rw [if_pos hempty]
    have hsub : detectedBays keys ⊆ known := by
      rw [hnew] at hempty
      exact Finset.sdiff_eq_empty_iff_subset.mp hempty
    have hreg : (∅ : Finset String) = detectedBays keys \ known := by
      rw [← hnew, hempty]
    have hknown : known \ (known \ detectedBays keys) = detectedBays keys := by
      rw [hk1]
      ext x
      simp only [Finset.mem_inter]
      exact ⟨fun h => h.2, fun h => ⟨hsub h, h⟩⟩
    simp only [DriveDiscoveryResult.mk.injEq]
    exact ⟨trivial, trivial, hreg, hknown⟩
  · rw [if_neg hempty]
    have hcard : ¬ ((detectedBays keys \ (known \ (known \ detectedBays keys))).card
        * DRIVE_SENSOR_SUFFIXES.length = 0) := by
      intro h
      rcases Nat.mul_eq_zero.mp h with hc | hl
      · exact hempty (Finset.card_eq_zero.mp hc)
      · simp [DRIVE_SENSOR_SUFFIXES] at hl
    rw [if_neg hcard]
    have hknown : (known \ (known \ detectedBays keys))
        ∪ (detectedBays keys \ (known \ (known \ detectedBays keys)))
        = detectedBays keys := by
      rw [hnew, hk1]
      ext x
      simp only [Finset.mem_union, Finset.mem_inter, Finset.mem_sdiff]
      tauto
    simp only [DriveDiscoveryResult.mk.injEq]
    exact ⟨trivial, trivial, hnew, hknown⟩

/-- Claim C3: a resource-discovery pass registers entities exactly for
`detected − known`, deregisters and tombstones exactly for
`known − detected`, and leaves the known set equal to `detected`; in the
spec's concrete instance, detected `{1,2}` against known `{2,3}` registers
`{1}`, removes `{3}` (tombstoning its nine retained topics), and ends with
known `{1,2}`. -/
theorem drive_discovery_reconciliation :
    (∀ (root : String) (mqttKeys : List String) (known : Finset String),
        (discoverDriveSensors root mqttKeys known).removedBays
          = known \ detectedBays mqttKeys ∧
        (discoverDriveSensors root mqttKeys known).registeredBays
          = detectedBays mqttKeys \ known ∧
        (discoverDriveSensors root mqttKeys known).knownAfter = detectedBays mqttKeys ∧
        (discoverDriveSensors root mqttKeys known).tombstoneTopics
          = (known \ detectedBays mqttKeys).biUnion
              (fun bay => (DRIVE_SENSOR_SUFFIXES.map
                (fun suf => root ++ "/hdd/" ++ bay ++ "/" ++ suf)).toFinset)) ∧
    ((discoverDriveSensors "unas/e1"
        ["unas_hdd_1_temperature", "unas_hdd_2_temperature"] {"2", "3"}).removedBays
        = {"3"} ∧
      (discoverDriveSensors "unas/e1"
        ["unas_hdd_1_temperature", "unas_hdd_2_temperature"] {"2", "3"}).registeredBays
        = {"1"} ∧
      (discoverDriveSensors "unas/e1"
        ["unas_hdd_1_temperature", "unas_hdd_2_temperature"] {"2", "3"}).knownAfter
        = {"1", "2"} ∧
      (discoverDriveSensors "unas/e1"
        ["unas_hdd_1_temperature", "unas_hdd_2_temperature"] {"2", "3"}).tombstoneTopics
        = {"unas/e1/hdd/3/temperature", "unas/e1/hdd/3/model",
            "unas/e1/hdd/3/serial", "unas/e1/hdd/3/rpm", "unas/e1/hdd/3/firmware",
            "unas/e1/hdd/3/status", "unas/e1/hdd/3/total_size",
            "unas/e1/hdd/3/power_on_hours", "unas/e1/hdd/3/bad_sectors"}) := by
  constructor
  · intro root mqttKeys known
    rw [discoverDriveSensors_eq]
    exact ⟨rfl, rfl, rfl, rfl⟩
  · exact ⟨by decide, by decide, by decide, by decide⟩

/-- Witness for the backup-API degradation claim at concrete outputs:
whitespace-only stdout and undecodable stdout both yield an empty dict. -/
theorem backup_api_degrades_to_empty_witness :
    (pyStrip "  " = "" ∧
      execute_backup_api (fun _ => none) (.ok "  ") = .ok (.obj [])) ∧
    ((fun _ : String => (none : Option PyJson)) "not json" = none ∧
      execute_backup_api (fun _ => none) (.ok "not json") = .ok (.obj [])) := by
  refine ⟨⟨rfl, ?_⟩, ⟨rfl, ?_⟩⟩
  · exact backup_api_degrades_to_empty.2.1 (fun _ => none) "  " rfl
  · exact backup_api_degrades_to_empty.2.2.1 (fun _ => none) "not json" rfl
